import Mathlib

/-!
Shallow embedding of `src/discounted_cash_flow_model/discounted_cash_flow_model.py`
(the Valuation Engine, class `DiscountedCashFlowModel`).

Conventions of the embedding:
* Python floats are embedded as exact rationals `ℚ` (the spec promises no
  precision guarantees beyond doubles; all claims are about the exact formulas).
* Python code that can raise is embedded in `Except Err`; `pydiv` mirrors the
  fact that Python division raises `ZeroDivisionError` on a zero denominator,
  and list comprehensions evaluate left to right, aborting at the first raise.
* A record's `date` string is embedded as the already-parsed leading year
  `int(date.split("-")[0])`, an integer; string parsing itself is out of scope.
-/

namespace DCF

/-- Modelled from the spec: the `Risk` enumeration imported by the engine via
`from .risk import Risk` lives in `src/discounted_cash_flow_model/risk.py`,
which is absent from the sources; the spec describes it as a closed
enumeration {Conservative, Moderate, Bullish}. -/
inductive Risk
  | conservative
  | moderate
  | bullish
  deriving DecidableEq, Repr

/-- Failure outcomes of the engine.  The first three constructors are the
Python exceptions that engine code actually raises: `zeroDivision` is
`ZeroDivisionError` (division by `0` or `0.0`), `valueErrorEmptySeq` is the
`ValueError` raised by `min()`/`max()` on an empty sequence, `indexError` is
the `IndexError` of `some_list[-1]`/`some_list[0]` on an empty list.
The final three name kinds from the spec's error taxonomy (§7); no code path
of the engine produces them — they exist so the spec's claims about them can
be stated and compared with what the code does. -/
inductive Err
  | zeroDivision
  | valueErrorEmptySeq
  | indexError
  | insufficientHistory
  | invalidConfiguration
  | invalidSharesOutstanding
  deriving DecidableEq, Repr

/-- Python float division: raises `ZeroDivisionError` on a zero denominator. -/
def pydiv (a b : ℚ) : Except Err ℚ :=
  if b = 0 then Except.error Err.zeroDivision else Except.ok (a / b)

/-- A list comprehension whose element expression may raise: elements are
evaluated left to right and the first raise aborts the whole comprehension. -/
def map_except (f : α → Except Err β) : List α → Except Err (List β)
  | [] => Except.ok []
  | a :: as => do
    let b ← f a
    let bs ← map_except f as
    Except.ok (b :: bs)

/-- One combined historical year (`_combine_metrics` output element):
`{"year": ..., "revenue": ..., "net_income": ..., "free_cash_flow": ...}`. -/
structure YearlyMetric where
  year : ℤ
  revenue : ℚ
  net_income : ℚ
  free_cash_flow : ℚ
  deriving DecidableEq, Repr

/-- The value the code stores under `"year"` in a projected entry.  At line
340 the code executes `future_revenue.append({"year": future_revenue, ...})`:
the `"year"` key receives the `future_revenue` list object itself (the loop
variable `future_year` is never used), not an integer.  `selfList` embeds
that list reference; `intY n` embeds an integer year label. -/
inductive PyYear
  | intY (n : ℤ)
  | selfList
  deriving DecidableEq, Repr

/-- One element of `_calculate_future_revenue`'s output:
`{"year": ..., "revenue": ...}`. -/
structure FutureRev where
  year : PyYear
  revenue : ℚ
  deriving DecidableEq, Repr

/-- One projected year after `_calculate_future_net_income_and_free_cash_flow`
mutates the estimate dict in place, adding net income and free cash flow. -/
structure FutureMetric where
  year : PyYear
  revenue : ℚ
  net_income : ℚ
  free_cash_flow : ℚ
  deriving DecidableEq, Repr

/-- One raw income-statement year: the engine reads `date` (whose leading
`YYYY` token is parsed to an int, embedded here already parsed as
`date_year`), `Revenue` and `Net Income`. -/
structure IncomeRecord where
  date_year : ℤ
  revenue : ℚ
  net_income : ℚ
  deriving DecidableEq, Repr

/-- One raw cash-flow-statement year: the engine reads
`Operating Cash Flow` and `Capital Expenditure`. -/
structure CashFlowRecord where
  operating_cash_flow : ℚ
  capital_expenditure : ℚ
  deriving DecidableEq, Repr

/-- The `financials` dict handed to `calculate`; the engine only reads the
`income_statement` and `cash_flow_statement` entries (each a `financials`
list), never `balance_sheet`. -/
structure Financials where
  income_statement : List IncomeRecord
  cash_flow_statement : List CashFlowRecord
  deriving DecidableEq, Repr

/-- One quote dict; the engine only reads `sharesOutstanding`. -/
structure Quote where
  shares_outstanding : ℚ
  deriving DecidableEq, Repr

/-- The `DiscountedCashFlowModel` constructor arguments, stored unvalidated
by `__init__` (rates and margins are percentages, e.g. `8` means 8%). -/
structure DiscountedCashFlowModel where
  required_rate_of_return : ℚ
  years_to_project : ℕ
  risk : Risk
  perpetual_growth_rate : ℚ
  margin_of_safety : ℚ
  deriving DecidableEq, Repr

/-- `_add_percentage`: `num + (num * percentage)`. -/
def add_percentage (num percentage : ℚ) : ℚ :=
  num + num * percentage

/-- `_subtract_percentage`: `num - (num * percentage)`. -/
def subtract_percentage (num percentage : ℚ) : ℚ :=
  num - num * percentage

/-- `_percentage_change`: `(new - old) / old`, raising on `old = 0`. -/
def percentage_change (old new : ℚ) : Except Err ℚ :=
  pydiv (new - old) old

/-- `_choose_percentage_based_on_risk`: `min` for `CONSERVATIVE`, the mean
`sum(percentages) / len(percentages)` for `MODERATE`, `max` otherwise.
Python's `min`/`max` of a nonempty list fold the binary min/max over it and
raise `ValueError` on an empty sequence; the mean raises `ZeroDivisionError`
on an empty list (`len` is 0). -/
def choose_percentage_based_on_risk (risk : Risk) (percentages : List ℚ) :
    Except Err ℚ :=
  match risk with
  | Risk.conservative =>
    match percentages with
    | [] => Except.error Err.valueErrorEmptySeq
    | p :: ps => Except.ok (ps.foldl min p)
  | Risk.moderate => pydiv percentages.sum (percentages.length : ℚ)
  | Risk.bullish =>
    match percentages with
    | [] => Except.error Err.valueErrorEmptySeq
    | p :: ps => Except.ok (ps.foldl max p)

/-- `_combine_metrics`: zip the income and cash-flow years positionally,
build one metric dict per pair (free cash flow = operating cash flow −
capital expenditure), then sort ascending by year
(`sorted(metrics, key=lambda x: x["year"])`).  Python's `sorted` is a stable
ascending sort by the key; it is embedded as the stable insertion sort by
the year key, which agrees with any stable sort on the same key. -/
def combine_metrics (financials : Financials) : List YearlyMetric :=
  let metrics :=
    (financials.income_statement.zip financials.cash_flow_statement).map
      (fun p =>
        { year := p.1.date_year
          revenue := p.1.revenue
          net_income := p.1.net_income
          free_cash_flow := p.2.operating_cash_flow - p.2.capital_expenditure })
  metrics.insertionSort (fun a b => a.year ≤ b.year)

/-- `_calculate_free_cash_flow_rate`: ratios `free_cash_flow / net_income`
for every year (raising on a zero net income), reduced by risk. -/
def calculate_free_cash_flow_rate (risk : Risk) (metrics : List YearlyMetric) :
    Except Err ℚ := do
  let ratios ← map_except (fun metric => pydiv metric.free_cash_flow metric.net_income) metrics
  choose_percentage_based_on_risk risk ratios

/-- `_calculate_revenue_growth_rate`: for `i` in `1 .. len-1`, the percentage
change from `metrics[i-1].revenue` to `metrics[i].revenue` (consecutive pairs
= `metrics.zip metrics.tail`), reduced by risk. -/
def calculate_revenue_growth_rate (risk : Risk) (metrics : List YearlyMetric) :
    Except Err ℚ := do
  let percentage_changes ← map_except
    (fun p => percentage_change p.1.revenue p.2.revenue)
    (metrics.zip metrics.tail)
  choose_percentage_based_on_risk risk percentage_changes

/-- `_calculate_net_income_margins_percentage`: ratios
`net_income / revenue` for every year (raising on a zero revenue),
reduced by risk. -/
def calculate_net_income_margins_percentage (risk : Risk)
    (metrics : List YearlyMetric) : Except Err ℚ := do
  let margins ← map_except (fun metric => pydiv metric.net_income metric.revenue) metrics
  choose_percentage_based_on_risk risk margins

/-- The body of `_calculate_future_revenue`'s loop
`for future_year in range(year + 1, year + years_to_project + 1)` (which
runs exactly `years_to_project` times): compound the running revenue by the
growth rate and append `{"year": future_revenue, "revenue": curr_revenue}` —
note the `"year"` value is the `future_revenue` list itself (`selfList`),
not the loop's `future_year`. -/
def future_revenue_loop (rate : ℚ) : ℚ → ℕ → List FutureRev
  | _, 0 => []
  | curr, n + 1 =>
    let next := add_percentage curr rate
    { year := PyYear.selfList, revenue := next } :: future_revenue_loop rate next n

/-- `_calculate_future_revenue`: start from `metrics[-1]` (raising
`IndexError` on an empty list) and run the projection loop. -/
def calculate_future_revenue (metrics : List YearlyMetric)
    (revenue_growth_rate : ℚ) (years_to_project : ℕ) :
    Except Err (List FutureRev) :=
  match metrics.getLast? with
  | none => Except.error Err.indexError
  | some metric =>
    Except.ok (future_revenue_loop revenue_growth_rate metric.revenue years_to_project)

/-- `_calculate_future_net_income_and_free_cash_flow`: for each estimate,
net income = revenue × margin, free cash flow = net income × FCF rate;
the `"year"` value is carried over unchanged. -/
def calculate_future_net_income_and_free_cash_flow
    (future_revenue : List FutureRev)
    (free_cash_flow_rate_percentage net_income_margins_percentage : ℚ) :
    List FutureMetric :=
  future_revenue.map (fun estimate =>
    let future_net_income := estimate.revenue * net_income_margins_percentage
    let future_free_cash_flow := future_net_income * free_cash_flow_rate_percentage
    { year := estimate.year
      revenue := estimate.revenue
      net_income := future_net_income
      free_cash_flow := future_free_cash_flow })

/-- `_estimate_future_metrics`: future revenues, then future net income and
free cash flow from them. -/
def estimate_future_metrics (years_to_project : ℕ) (metrics : List YearlyMetric)
    (free_cash_flow_rate_percentage revenue_growth_rate
      net_income_margins_percentage : ℚ) : Except Err (List FutureMetric) := do
  let future_revenue ← calculate_future_revenue metrics revenue_growth_rate years_to_project
  Except.ok (calculate_future_net_income_and_free_cash_flow future_revenue
    free_cash_flow_rate_percentage net_income_margins_percentage)

/-- `_calculate_terminal_value`: `(fcf * (1 + g)) / (r - g)` with
`g = perpetual_growth_rate / 100` and `r = required_rate_of_return / 100`,
raising `ZeroDivisionError` when `r = g`. -/
def calculate_terminal_value (perpetual_growth_rate required_rate_of_return : ℚ)
    (last_future_metric : FutureMetric) : Except Err ℚ :=
  let fcf := last_future_metric.free_cash_flow
  let g := perpetual_growth_rate / 100
  let r := required_rate_of_return / 100
  pydiv (fcf * (1 + g)) (r - g)

/-- `_discount_factor`: `(1 + r) ** t`. -/
def discount_factor (r : ℚ) (t : ℕ) : ℚ :=
  (1 + r) ^ t

/-- `_present_value`: `fcf / _discount_factor(r, t)`. -/
def present_value (fcf r : ℚ) (t : ℕ) : Except Err ℚ :=
  pydiv fcf (discount_factor r t)

/-- The comprehension
`[_present_value(metric["free_cash_flow"], r, i + 1) for i, metric in enumerate(future_metrics)]`:
present values of the projected free cash flows at 1-based exponents
(`t` is the 1-based position of the metric in the list). -/
def present_values_loop (r : ℚ) : ℕ → List FutureMetric → Except Err (List ℚ)
  | _, [] => Except.ok []
  | t, metric :: rest => do
    let pv ← present_value metric.free_cash_flow r t
    let pvs ← present_values_loop r (t + 1) rest
    Except.ok (pv :: pvs)

/-- `_calculate_today_value`: sum the present values of the projected free
cash flows (exponents `1 .. len`) plus the terminal value discounted with
exponent `len(future_metrics)`. -/
def calculate_today_value (required_rate_of_return : ℚ)
    (future_metrics : List FutureMetric) (terminal_value : ℚ) :
    Except Err ℚ := do
  let r := required_rate_of_return / 100
  let pvs ← present_values_loop r 1 future_metrics
  let present_value_terminal ← present_value terminal_value r future_metrics.length
  Except.ok (pvs.sum + present_value_terminal)

/-- `_calculate_fair_value`: `today_value / quotes[0]["sharesOutstanding"]`,
raising `IndexError` on an empty quotes list and `ZeroDivisionError` on a
zero share count; there is no sign check. -/
def calculate_fair_value (quotes : List Quote) (today_value : ℚ) :
    Except Err ℚ :=
  match quotes with
  | [] => Except.error Err.indexError
  | q :: _ => pydiv today_value q.shares_outstanding

/-- `_apply_margin_of_safety`:
`_subtract_percentage(fair_value, margin_of_safety / 100)`. -/
def apply_margin_of_safety (margin_of_safety fair_value : ℚ) : ℚ :=
  subtract_percentage fair_value (margin_of_safety / 100)

/-- `DiscountedCashFlowModel.calculate`: the nine pipeline steps in source
order.  The `symbol` parameter is accepted and never read. -/
def calculate (model : DiscountedCashFlowModel) (symbol : String)
    (financials : Financials) (quotes : List Quote) : Except Err (ℚ × ℚ) := do
  let metrics := combine_metrics financials
  let free_cash_flow_rate_percentage ← calculate_free_cash_flow_rate model.risk metrics
  let revenue_growth_rate ← calculate_revenue_growth_rate model.risk metrics
  let net_income_margins_percentage ← calculate_net_income_margins_percentage model.risk metrics
  let future_metrics ← estimate_future_metrics model.years_to_project metrics
    free_cash_flow_rate_percentage revenue_growth_rate net_income_margins_percentage
  let last_future_metric ← (match future_metrics.getLast? with
    | none => Except.error Err.indexError
    | some m => Except.ok m)
  let terminal_value ← calculate_terminal_value model.perpetual_growth_rate
    model.required_rate_of_return last_future_metric
  let today_value ← calculate_today_value model.required_rate_of_return
    future_metrics terminal_value
  let fair_value ← calculate_fair_value quotes today_value
  let fair_with_margin_of_safety := apply_margin_of_safety model.margin_of_safety fair_value
  Except.ok (fair_value, fair_with_margin_of_safety)

/-- Modelled from the spec: the present-value discounting formula of §4.5,
`TodayValue = Σ PV_t (for all projected years) + PV(TerminalValue)` with
`PV_t = FCF_t / (1+r)^t` for 1-based `t` and the terminal value discounted
with exponent `N = years_to_project` (the length of the projected list).
Stated from the spec's words, to be compared with `calculate_today_value`. -/
def today_value_spec (r : ℚ) (fcfs : List ℚ) (tv : ℚ) : ℚ :=
  (∑ i ∈ Finset.range fcfs.length, fcfs.getD i 0 / (1 + r) ^ (i + 1)) +
    tv / (1 + r) ^ fcfs.length

/-! ## Helper lemmas -/

@[simp] lemma ok_bind {α β : Type} (a : α) (f : α → Except Err β) :
    (Except.ok a >>= f) = f a := rfl

@[simp] lemma error_bind {α β : Type} (e : Err) (f : α → Except Err β) :
    ((Except.error e : Except Err α) >>= f) = Except.error e := rfl

lemma foldl_min_mem : ∀ (ps : List ℚ) (p : ℚ), ps.foldl min p ∈ p :: ps
  | [], _ => by simp
  | q :: ps, p => by
    rw [List.foldl_cons]
    rcases List.mem_cons.mp (foldl_min_mem ps (min p q)) with h1 | h1
    · rcases min_choice p q with h2 | h2
      · rw [h1, h2]; exact List.mem_cons_self _ _
      · rw [h1, h2]; exact List.mem_cons_of_mem _ (List.mem_cons_self _ _)
    · exact List.mem_cons_of_mem _ (List.mem_cons_of_mem _ h1)

lemma foldl_min_le : ∀ (ps : List ℚ) (p : ℚ), ∀ x ∈ p :: ps, ps.foldl min p ≤ x
  | [], p, x, hx => by
    rw [List.mem_singleton] at hx
    rw [hx, List.foldl_nil]
  | q :: ps, p, x, hx => by
    rw [List.foldl_cons]
    have hbase : ps.foldl min (min p q) ≤ min p q :=
      foldl_min_le ps (min p q) (min p q) (List.mem_cons_self _ _)
    rcases List.mem_cons.mp hx with h1 | h1
    · subst h1; exact le_trans hbase (min_le_left _ _)
    · rcases List.mem_cons.mp h1 with h2 | h2
      · subst h2; exact le_trans hbase (min_le_right _ _)
      · exact foldl_min_le ps (min p q) x (List.mem_cons_of_mem _ h2)

lemma foldl_max_mem : ∀ (ps : List ℚ) (p : ℚ), ps.foldl max p ∈ p :: ps
  | [], _ => by simp
  | q :: ps, p => by
    rw [List.foldl_cons]
    rcases List.mem_cons.mp (foldl_max_mem ps (max p q)) with h1 | h1
    · rcases max_choice p q with h2 | h2
      · rw [h1, h2]; exact List.mem_cons_self _ _
      · rw [h1, h2]; exact List.mem_cons_of_mem _ (List.mem_cons_self _ _)
    · exact List.mem_cons_of_mem _ (List.mem_cons_of_mem _ h1)

lemma le_foldl_max : ∀ (ps : List ℚ) (p : ℚ), ∀ x ∈ p :: ps, x ≤ ps.foldl max p
  | [], p, x, hx => by
    rw [List.mem_singleton] at hx
    rw [hx, List.foldl_nil]
  | q :: ps, p, x, hx => by
    rw [List.foldl_cons]
    have hbase : max p q ≤ ps.foldl max (max p q) :=
      le_foldl_max ps (max p q) (max p q) (List.mem_cons_self _ _)
    rcases List.mem_cons.mp hx with h1 | h1
    · subst h1; exact le_trans (le_max_left _ _) hbase
    · rcases List.mem_cons.mp h1 with h2 | h2
      · subst h2; exact le_trans (le_max_right _ _) hbase
      · exact le_foldl_max ps (max p q) x (List.mem_cons_of_mem _ h2)

lemma map_except_ok_of_forall {α β : Type} (f : α → Except Err β) (g : α → β) :
    ∀ l : List α, (∀ a ∈ l, f a = Except.ok (g a)) →
      map_except f l = Except.ok (l.map g)
  | [], _ => rfl
  | a :: as, h => by
    have h1 := h a (List.mem_cons_self _ _)
    have h2 := map_except_ok_of_forall f g as (fun x hx => h x (List.mem_cons_of_mem _ hx))
    simp [map_except, h1, h2]

lemma map_except_pydiv_error {α : Type} (num den : α → ℚ) :
    ∀ l : List α, (∃ a ∈ l, den a = 0) →
      map_except (fun a => pydiv (num a) (den a)) l = Except.error Err.zeroDivision
  | [], h => by simp at h
  | a :: as, h => by
    by_cases ha : den a = 0
    · simp [map_except, pydiv, ha]
    · rcases h with ⟨b, hb, hb0⟩
      rcases List.mem_cons.mp hb with h1 | h1
      · exact absurd (h1 ▸ hb0) ha
      · have hrec := map_except_pydiv_error num den as ⟨b, h1, hb0⟩
        simp only [map_except]
        rw [hrec]
        simp [pydiv, ha]

lemma choose_empty_error (risk : Risk) :
    ∃ e, choose_percentage_based_on_risk risk [] = Except.error e ∧
      e ≠ Err.insufficientHistory := by
  cases risk with
  | conservative => exact ⟨Err.valueErrorEmptySeq, rfl, by decide⟩
  | moderate =>
    refine ⟨Err.zeroDivision, ?_, by decide⟩
    simp [choose_percentage_based_on_risk, pydiv]
  | bullish => exact ⟨Err.valueErrorEmptySeq, rfl, by decide⟩

lemma choose_singleton (risk : Risk) (x : ℚ) :
    choose_percentage_based_on_risk risk [x] = Except.ok x := by
  cases risk with
  | conservative => rfl
  | moderate => simp [choose_percentage_based_on_risk, pydiv]
  | bullish => rfl

lemma combine_metrics_length (financials : Financials) :
    (combine_metrics financials).length =
      min financials.income_statement.length financials.cash_flow_statement.length := by
  simp [combine_metrics, List.length_insertionSort, List.length_zip]

lemma future_revenue_loop_length (rate : ℚ) :
    ∀ (curr : ℚ) (n : ℕ), (future_revenue_loop rate curr n).length = n
  | _, 0 => rfl
  | curr, n + 1 => by
    simp [future_revenue_loop, future_revenue_loop_length rate _ n]

lemma exists_error_bind {α β : Type} (m : Except Err α) (f : α → Except Err β)
    (h : ∀ a, ∃ e, f a = Except.error e) : ∃ e, m >>= f = Except.error e := by
  cases m with
  | error e => exact ⟨e, rfl⟩
  | ok a => simpa using h a

lemma present_values_loop_ok (r : ℚ) (hr : 1 + r ≠ 0) :
    ∀ (l : List FutureMetric) (t : ℕ),
      ∃ pvs : List ℚ, present_values_loop r t l = Except.ok pvs ∧
        pvs.sum = ∑ i ∈ Finset.range l.length,
          (l.map FutureMetric.free_cash_flow).getD i 0 / (1 + r) ^ (t + i)
  | [], t => ⟨[], rfl, by simp⟩
  | m :: ms, t => by
    obtain ⟨pvs, hok, hsum⟩ := present_values_loop_ok r hr ms (t + 1)
    refine ⟨m.free_cash_flow / (1 + r) ^ t :: pvs, ?_, ?_⟩
    · simp [present_values_loop, present_value, discount_factor, pydiv,
        pow_ne_zero _ hr, hok]
    · simp only [List.sum_cons, hsum, List.length_cons, List.map_cons]
      conv_rhs => rw [Finset.sum_range_succ']
      simp only [List.getD_cons_succ, List.getD_cons_zero, Nat.add_zero]
      rw [add_comm]
      congr 1
      refine Finset.sum_congr rfl (fun i _ => ?_)
      have hexp : t + 1 + i = t + (i + 1) := by omega
      rw [hexp]

/-! ## Claim theorems -/

/-- Claim C1: for every non-empty list of ratio values, the risk selection
returns the minimum of the list under the Conservative posture, the
arithmetic mean under Moderate, and the maximum under Bullish. -/
theorem risk_selection_min_mean_max (ps : List ℚ) (h : ps ≠ []) :
    (∃ m, choose_percentage_based_on_risk Risk.conservative ps = Except.ok m ∧
      m ∈ ps ∧ ∀ x ∈ ps, m ≤ x) ∧
    choose_percentage_based_on_risk Risk.moderate ps =
      Except.ok (ps.sum / (ps.length : ℚ)) ∧
    (∃ m, choose_percentage_based_on_risk Risk.bullish ps = Except.ok m ∧
      m ∈ ps ∧ ∀ x ∈ ps, x ≤ m) := by
  match ps, h with
  | p :: ps, _ =>
    refine ⟨⟨ps.foldl min p, rfl, foldl_min_mem ps p, foldl_min_le ps p⟩, ?_,
      ⟨ps.foldl max p, rfl, foldl_max_mem ps p, le_foldl_max ps p⟩⟩
    simp [choose_percentage_based_on_risk, pydiv, Nat.cast_add_one_ne_zero]

/-- Witness for C1 at the concrete list `[1, 2]`. -/
theorem risk_selection_min_mean_max_witness :
    (∃ m, choose_percentage_based_on_risk Risk.conservative [1, 2] = Except.ok m ∧
      m ∈ ([1, 2] : List ℚ) ∧ ∀ x ∈ ([1, 2] : List ℚ), m ≤ x) ∧
    choose_percentage_based_on_risk Risk.moderate [1, 2] =
      Except.ok (([1, 2] : List ℚ).sum / ((([1, 2] : List ℚ).length : ℕ) : ℚ)) ∧
    (∃ m, choose_percentage_based_on_risk Risk.bullish [1, 2] = Except.ok m ∧
      m ∈ ([1, 2] : List ℚ) ∧ ∀ x ∈ ([1, 2] : List ℚ), x ≤ m) :=
  risk_selection_min_mean_max [1, 2] (List.cons_ne_nil 1 [2])

/-- Claim C8: on the same non-empty ratio list, the Conservative selection is
at most the Moderate selection, which is at most the Bullish selection
(min ≤ mean ≤ max). -/
theorem conservative_le_moderate_le_bullish (ps : List ℚ) (h : ps ≠ []) :
    ∃ lo mid hi,
      choose_percentage_based_on_risk Risk.conservative ps = Except.ok lo ∧
      choose_percentage_based_on_risk Risk.moderate ps = Except.ok mid ∧
      choose_percentage_based_on_risk Risk.bullish ps = Except.ok hi ∧
      lo ≤ mid ∧ mid ≤ hi := by
  match ps, h with
  | p :: ps, _ =>
    have hlen : (0 : ℚ) < ((p :: ps).length : ℚ) := by
      exact_mod_cast Nat.succ_pos ps.length
    refine ⟨ps.foldl min p, (p :: ps).sum / (((p :: ps).length : ℕ) : ℚ),
      ps.foldl max p, rfl, ?_, rfl, ?_, ?_⟩
    · simp [choose_percentage_based_on_risk, pydiv, Nat.cast_add_one_ne_zero]
    · rw [le_div_iff₀ hlen]
      have hs := List.card_nsmul_le_sum (p :: ps) (ps.foldl min p) (foldl_min_le ps p)
      rw [nsmul_eq_mul] at hs
      calc ps.foldl min p * ((p :: ps).length : ℚ)
          = ((p :: ps).length : ℚ) * ps.foldl min p := by ring
        _ ≤ (p :: ps).sum := hs
    · rw [div_le_iff₀ hlen]
      have hs := List.sum_le_card_nsmul (p :: ps) (ps.foldl max p) (le_foldl_max ps p)
      rw [nsmul_eq_mul] at hs
      calc (p :: ps).sum ≤ ((p :: ps).length : ℚ) * ps.foldl max p := hs
        _ = ps.foldl max p * ((p :: ps).length : ℚ) := by ring

/-- Witness for C8 at the concrete list `[1, 2]`. -/
theorem conservative_le_moderate_le_bullish_witness :
    ∃ lo mid hi,
      choose_percentage_based_on_risk Risk.conservative [1, 2] = Except.ok lo ∧
      choose_percentage_based_on_risk Risk.moderate [1, 2] = Except.ok mid ∧
      choose_percentage_based_on_risk Risk.bullish [1, 2] = Except.ok hi ∧
      lo ≤ mid ∧ mid ≤ hi :=
  conservative_le_moderate_le_bullish [1, 2] (List.cons_ne_nil 1 [2])

/-- Claim C10: `calculate` never reads its ticker-symbol argument, so two
runs with identical financials, quotes and configuration but different
symbol strings return identical results. -/
theorem calculate_symbol_independent (model : DiscountedCashFlowModel)
    (s1 s2 : String) (financials : Financials) (quotes : List Quote) :
    calculate model s1 financials quotes = calculate model s2 financials quotes := rfl

/-- Claim C3 (failing input): projecting 2 years from a single historical
year 2019 produces entries whose `"year"` value is the `future_revenue`
list object itself (the code stores the list, not the loop's `future_year`),
so the year labels are not the integers 2020, 2021 required by the claim.
The revenues and the length are as specified. -/
theorem future_revenue_year_field_is_list_ref :
    calculate_future_revenue [⟨2019, 1000, 100, 80⟩] (1 / 10) 2 =
      Except.ok [⟨PyYear.selfList, 1100⟩, ⟨PyYear.selfList, 1210⟩] ∧
    PyYear.selfList ≠ PyYear.intY 2020 := by
  constructor
  · norm_num [calculate_future_revenue, future_revenue_loop, add_percentage]
  · decide

/-- Claim C5 (amended): when `required_rate_of_return` equals
`perpetual_growth_rate`, the terminal-value computation raises
`ZeroDivisionError` (the construction of the model performs no validation,
and the engine defines no InvalidConfiguration error). -/
theorem terminal_value_zero_division_when_r_eq_g
    (model : DiscountedCashFlowModel) (m : FutureMetric)
    (h : model.required_rate_of_return = model.perpetual_growth_rate) :
    calculate_terminal_value model.perpetual_growth_rate
      model.required_rate_of_return m = Except.error Err.zeroDivision := by
  simp [calculate_terminal_value, pydiv, h]

/-- Witness for the amended C5 at a concrete model with `r = g = 2.5`. -/
theorem terminal_value_zero_division_when_r_eq_g_witness :
    calculate_terminal_value
      (⟨5 / 2, 1, Risk.conservative, 5 / 2, 50⟩ : DiscountedCashFlowModel).perpetual_growth_rate
      (⟨5 / 2, 1, Risk.conservative, 5 / 2, 50⟩ : DiscountedCashFlowModel).required_rate_of_return
      ⟨PyYear.selfList, 1210, 121, 968 / 10⟩ = Except.error Err.zeroDivision :=
  terminal_value_zero_division_when_r_eq_g ⟨5 / 2, 1, Risk.conservative, 5 / 2, 50⟩
    ⟨PyYear.selfList, 1210, 121, 968 / 10⟩ rfl

/-- Claim C5 counterexample: with `required_rate_of_return =
perpetual_growth_rate = 2.5` the model is constructed without complaint and
a full evaluation on two well-formed historical years fails with
`ZeroDivisionError` at terminal-value computation, not with an
InvalidConfiguration error at configuration time. -/
theorem r_eq_g_error_kind_cex :
    calculate ⟨5 / 2, 1, Risk.conservative, 5 / 2, 50⟩ "AAPL"
      ⟨[⟨2018, 1000, 100⟩, ⟨2019, 1100, 110⟩], [⟨580, 500⟩, ⟨588, 500⟩]⟩ [⟨10⟩] =
      Except.error Err.zeroDivision ∧
    Err.zeroDivision ≠ Err.invalidConfiguration := by
  constructor
  · norm_num [calculate, combine_metrics, List.insertionSort, List.orderedInsert,
      calculate_free_cash_flow_rate, calculate_revenue_growth_rate,
      calculate_net_income_margins_percentage, map_except, pydiv,
      choose_percentage_based_on_risk, percentage_change,
      estimate_future_metrics, calculate_future_revenue, future_revenue_loop,
      add_percentage, calculate_future_net_income_and_free_cash_flow,
      calculate_terminal_value]
  · decide

/-- Claim C2: for a projection of `years_to_project ≥ 1` years, the today
value equals the sum over `t = 1 .. N` of `FCF_t / (1+r)^t` plus
`TV / (1+r)^N` (the spec formula `today_value_spec`), with
`TV = FCF_N × (1+g) / (r−g)` computed from the last projected year and
discounted with the same exponent `N` as the final projected year. -/
theorem today_value_discounting (required_rate_of_return perpetual_growth_rate : ℚ)
    (years_to_project : ℕ) (metrics : List YearlyMetric)
    (fcf_rate rev_growth ni_margin : ℚ) (future_metrics : List FutureMetric)
    (last_metric : FutureMetric)
    (hN : 1 ≤ years_to_project)
    (hproj : estimate_future_metrics years_to_project metrics fcf_rate rev_growth
      ni_margin = Except.ok future_metrics)
    (hr : 1 + required_rate_of_return / 100 ≠ 0)
    (hrg : required_rate_of_return / 100 ≠ perpetual_growth_rate / 100)
    (hlast : future_metrics.getLast? = some last_metric) :
    future_metrics.length = years_to_project ∧
    ∃ tv, calculate_terminal_value perpetual_growth_rate required_rate_of_return
        last_metric = Except.ok tv ∧
      tv = last_metric.free_cash_flow * (1 + perpetual_growth_rate / 100) /
        (required_rate_of_return / 100 - perpetual_growth_rate / 100) ∧
      calculate_today_value required_rate_of_return future_metrics tv =
        Except.ok (today_value_spec (required_rate_of_return / 100)
          (future_metrics.map FutureMetric.free_cash_flow) tv) := by
  have hsub : required_rate_of_return / 100 - perpetual_growth_rate / 100 ≠ 0 :=
    sub_ne_zero_of_ne hrg
  have hlen : future_metrics.length = years_to_project := by
    rcases hg : metrics.getLast? with _ | m
    · rw [estimate_future_metrics, calculate_future_revenue, hg] at hproj
      simp at hproj
    · rw [estimate_future_metrics, calculate_future_revenue, hg] at hproj
      simp only [ok_bind, Except.ok.injEq] at hproj
      rw [← hproj]
      simp [calculate_future_net_income_and_free_cash_flow,
        future_revenue_loop_length]
  refine ⟨hlen, last_metric.free_cash_flow * (1 + perpetual_growth_rate / 100) /
    (required_rate_of_return / 100 - perpetual_growth_rate / 100), ?_, rfl, ?_⟩
  · rw [calculate_terminal_value]
    simp only [pydiv, if_neg hsub]
  · obtain ⟨pvs, hok, hsum⟩ :=
      present_values_loop_ok (required_rate_of_return / 100) hr future_metrics 1
    rw [calculate_today_value]
    simp only [hok, ok_bind, present_value, discount_factor, pydiv,
      if_neg (pow_ne_zero future_metrics.length hr)]
    rw [today_value_spec]
    simp only [List.length_map, Except.ok.injEq]
    rw [hsum]
    congr 1
    refine Finset.sum_congr rfl (fun i _ => ?_)
    rw [Nat.add_comm 1 i]

/-- Witness for C2 at a concrete one-year projection. -/
theorem today_value_discounting_witness :
    ([⟨PyYear.selfList, 1100, 110, 88⟩] : List FutureMetric).length = 1 ∧
    ∃ tv, calculate_terminal_value (5 / 2) 8 ⟨PyYear.selfList, 1100, 110, 88⟩ =
        Except.ok tv ∧
      tv = (⟨PyYear.selfList, 1100, 110, 88⟩ : FutureMetric).free_cash_flow *
        (1 + 5 / 2 / 100) / (8 / 100 - 5 / 2 / 100) ∧
      calculate_today_value 8 [⟨PyYear.selfList, 1100, 110, 88⟩] tv =
        Except.ok (today_value_spec (8 / 100)
          ([⟨PyYear.selfList, 1100, 110, 88⟩].map FutureMetric.free_cash_flow) tv) :=
  today_value_discounting 8 (5 / 2) 1 [⟨2019, 1000, 100, 80⟩] (4 / 5) (1 / 10)
    (1 / 10) [⟨PyYear.selfList, 1100, 110, 88⟩] ⟨PyYear.selfList, 1100, 110, 88⟩
    (le_refl 1)
    (by norm_num [estimate_future_metrics, calculate_future_revenue,
      future_revenue_loop, add_percentage,
      calculate_future_net_income_and_free_cash_flow])
    (by norm_num) (by norm_num) rfl

/-- Claim C4 (amended): with fewer than 2 aligned historical years the
evaluation always fails, but with the Python error raised by the risk
selection on the empty growth-rate list (`ValueError` from `min`/`max`, or
`ZeroDivisionError` from the mean) or by a zero-net-income ratio — never
with an InsufficientHistory error, which the engine does not define. -/
theorem short_history_error_kind (model : DiscountedCashFlowModel)
    (symbol : String) (financials : Financials) (quotes : List Quote)
    (h : min financials.income_statement.length
      financials.cash_flow_statement.length < 2) :
    ∃ e, calculate model symbol financials quotes = Except.error e ∧
      e ≠ Err.insufficientHistory := by
  have hm : (combine_metrics financials).length < 2 := by
    rw [combine_metrics_length]; exact h
  obtain hmet | ⟨m, hmet⟩ :
      combine_metrics financials = [] ∨ ∃ m, combine_metrics financials = [m] := by
    match hc : combine_metrics financials with
    | [] => exact Or.inl rfl
    | [m] => exact Or.inr ⟨m, rfl⟩
    | a :: b :: rest =>
      rw [hc] at hm
      simp [List.length_cons] at hm
      omega
  · obtain ⟨e, he, hne⟩ := choose_empty_error model.risk
    refine ⟨e, ?_, hne⟩
    simp [calculate, hmet, calculate_free_cash_flow_rate, map_except, he]
  · by_cases hni : m.net_income = 0
    · refine ⟨Err.zeroDivision, ?_, by decide⟩
      simp [calculate, hmet, calculate_free_cash_flow_rate, map_except, pydiv, hni]
    · obtain ⟨e, he, hne⟩ := choose_empty_error model.risk
      refine ⟨e, ?_, hne⟩
      simp [calculate, hmet, calculate_free_cash_flow_rate, map_except, pydiv,
        hni, choose_singleton, calculate_revenue_growth_rate, he]

/-- Witness for the amended C4 at a concrete one-year input. -/
theorem short_history_error_kind_witness :
    min ([⟨2019, 1000, 100⟩] : List IncomeRecord).length
      ([⟨580, 500⟩] : List CashFlowRecord).length < 2 ∧
    ∃ e, calculate ⟨8, 4, Risk.conservative, 5 / 2, 50⟩ "AAPL"
        ⟨[⟨2019, 1000, 100⟩], [⟨580, 500⟩]⟩ [⟨10⟩] = Except.error e ∧
      e ≠ Err.insufficientHistory :=
  ⟨by norm_num,
    short_history_error_kind ⟨8, 4, Risk.conservative, 5 / 2, 50⟩ "AAPL"
      ⟨[⟨2019, 1000, 100⟩], [⟨580, 500⟩]⟩ [⟨10⟩] (by norm_num)⟩

/-- Claim C4 counterexample: a single historical year makes the evaluation
fail with the `ValueError` of `min()` on the empty percentage-change list
(under the Conservative posture), which is not an InsufficientHistory
error. -/
theorem one_year_history_error_kind_cex :
    calculate ⟨8, 4, Risk.conservative, 5 / 2, 50⟩ "AAPL"
      ⟨[⟨2019, 1000, 100⟩], [⟨580, 500⟩]⟩ [⟨10⟩] =
      Except.error Err.valueErrorEmptySeq ∧
    Err.valueErrorEmptySeq ≠ Err.insufficientHistory := by
  constructor
  · norm_num [calculate, combine_metrics, List.insertionSort, List.orderedInsert,
      calculate_free_cash_flow_rate, calculate_revenue_growth_rate, map_except,
      pydiv, choose_percentage_based_on_risk, percentage_change]
  · decide

/-- Claim C6 (amended): with a share count of exactly 0 the evaluation can
never succeed — whichever earlier stage fails or not, the fair-value
division itself raises `ZeroDivisionError` (not an InvalidSharesOutstanding
error); negative share counts are not checked at all (see the
counterexample, where a run with −10 shares succeeds). -/
theorem zero_shares_outstanding_error_kind (model : DiscountedCashFlowModel)
    (symbol : String) (financials : Financials) (q : Quote) (qs : List Quote)
    (tv : ℚ) (h0 : q.shares_outstanding = 0) :
    (∃ e, calculate model symbol financials (q :: qs) = Except.error e) ∧
    calculate_fair_value (q :: qs) tv = Except.error Err.zeroDivision := by
  have hfv : ∀ t : ℚ, calculate_fair_value (q :: qs) t =
      Except.error Err.zeroDivision := by
    intro t
    simp [calculate_fair_value, pydiv, h0]
  constructor
  · simp only [calculate]
    refine exists_error_bind _ _ (fun a => ?_)
    refine exists_error_bind _ _ (fun b => ?_)
    refine exists_error_bind _ _ (fun c => ?_)
    refine exists_error_bind _ _ (fun d => ?_)
    refine exists_error_bind _ _ (fun lastm => ?_)
    refine exists_error_bind _ _ (fun t => ?_)
    refine exists_error_bind _ _ (fun today => ?_)
    exact ⟨Err.zeroDivision, by rw [hfv today]; rfl⟩
  · exact hfv tv

/-- Witness for the amended C6 at a concrete zero-share quote. -/
theorem zero_shares_outstanding_error_kind_witness :
    (∃ e, calculate ⟨8, 1, Risk.conservative, 5 / 2, 50⟩ "AAPL"
      ⟨[⟨2018, 1000, 100⟩, ⟨2019, 1100, 110⟩], [⟨580, 500⟩, ⟨588, 500⟩]⟩
      [⟨0⟩] = Except.error e) ∧
    calculate_fair_value [(⟨0⟩ : Quote)] 37 = Except.error Err.zeroDivision :=
  zero_shares_outstanding_error_kind ⟨8, 1, Risk.conservative, 5 / 2, 50⟩ "AAPL"
    ⟨[⟨2018, 1000, 100⟩, ⟨2019, 1100, 110⟩], [⟨580, 500⟩, ⟨588, 500⟩]⟩ ⟨0⟩ [] 37 rfl

/-- Claim C6 counterexample: with 0 shares outstanding a full run fails with
`ZeroDivisionError`, not an InvalidSharesOutstanding error; and with the
negative share count −10 (also `shares_outstanding ≤ 0`) the same run
succeeds, returning fair values, so no `≤ 0` validation exists. -/
theorem nonpositive_shares_outstanding_cex :
    calculate ⟨8, 1, Risk.conservative, 5 / 2, 50⟩ "AAPL"
      ⟨[⟨2018, 1000, 100⟩, ⟨2019, 1100, 110⟩], [⟨580, 500⟩, ⟨588, 500⟩]⟩ [⟨0⟩] =
      Except.error Err.zeroDivision ∧
    Err.zeroDivision ≠ Err.invalidSharesOutstanding ∧
    calculate ⟨8, 1, Risk.conservative, 5 / 2, 50⟩ "AAPL"
      ⟨[⟨2018, 1000, 100⟩, ⟨2019, 1100, 110⟩], [⟨580, 500⟩, ⟨588, 500⟩]⟩ [⟨-10⟩] =
      Except.ok (-176, -88) := by
  refine ⟨?_, by decide, ?_⟩ <;>
    norm_num [calculate, combine_metrics, List.insertionSort, List.orderedInsert,
      calculate_free_cash_flow_rate, calculate_revenue_growth_rate,
      calculate_net_income_margins_percentage, map_except, pydiv,
      choose_percentage_based_on_risk, percentage_change,
      estimate_future_metrics, calculate_future_revenue, future_revenue_loop,
      add_percentage, calculate_future_net_income_and_free_cash_flow,
      calculate_terminal_value, calculate_today_value, present_values_loop,
      present_value, discount_factor, calculate_fair_value,
      apply_margin_of_safety, subtract_percentage]

/-- Claim C7 (amended): the free-cash-flow-rate derivation does not exclude
years with zero net income; it raises `ZeroDivisionError` as soon as any
year has `net_income = 0`, and only when every year has nonzero net income
does it return the risk selection applied to all the per-year ratios. -/
theorem fcf_rate_zero_net_income_behavior (risk : Risk)
    (metrics : List YearlyMetric) :
    calculate_free_cash_flow_rate risk metrics =
      if ∃ m ∈ metrics, m.net_income = 0 then Except.error Err.zeroDivision
      else choose_percentage_based_on_risk risk
        (metrics.map (fun m => m.free_cash_flow / m.net_income)) := by
  by_cases h : ∃ m ∈ metrics, m.net_income = 0
  · rw [if_pos h, calculate_free_cash_flow_rate,
      map_except_pydiv_error (fun m => m.free_cash_flow)
        (fun m => m.net_income) metrics h]
    rfl
  · rw [if_neg h]
    push_neg at h
    rw [calculate_free_cash_flow_rate,
      map_except_ok_of_forall _ (fun m => m.free_cash_flow / m.net_income)
        metrics (fun a ha => by simp [pydiv, h a ha])]
    simp

/-- Claim C7 counterexample: with one zero-net-income year 2018 and one
well-defined year 2019 the derivation fails with `ZeroDivisionError` instead
of excluding 2018 and selecting from the remaining ratio `88/110`. -/
theorem fcf_rate_partial_zero_net_income_cex :
    calculate_free_cash_flow_rate Risk.conservative
      [⟨2018, 1000, 0, 50⟩, ⟨2019, 1100, 110, 88⟩] =
        Except.error Err.zeroDivision ∧
    (⟨2019, 1100, 110, 88⟩ : YearlyMetric).net_income ≠ 0 ∧
    choose_percentage_based_on_risk Risk.conservative [(88 : ℚ) / 110] =
      Except.ok (4 / 5) := by
  refine ⟨?_, by norm_num, ?_⟩
  · norm_num [calculate_free_cash_flow_rate, map_except, pydiv]
  · norm_num [choose_percentage_based_on_risk]

/-- Claim C9 (amended): the margin-of-safety step returns exactly
`fair_value × (1 − margin_of_safety/100)`, and when the margin is positive
and the fair value is nonnegative the result is at most the fair value
(for a negative fair value the haircut increases the value instead). -/
theorem margin_of_safety_formula_and_haircut (fair_value margin_of_safety : ℚ)
    (hm : 0 < margin_of_safety) (hf : 0 ≤ fair_value) :
    apply_margin_of_safety margin_of_safety fair_value =
      fair_value * (1 - margin_of_safety / 100) ∧
    apply_margin_of_safety margin_of_safety fair_value ≤ fair_value := by
  constructor
  · rw [apply_margin_of_safety, subtract_percentage]; ring
  · rw [apply_margin_of_safety, subtract_percentage]
    have : 0 ≤ fair_value * (margin_of_safety / 100) := by positivity
    linarith

/-- Witness for the amended C9 at fair value 100 and margin 50. -/
theorem margin_of_safety_formula_and_haircut_witness :
    apply_margin_of_safety 50 100 = 100 * (1 - 50 / 100) ∧
    apply_margin_of_safety 50 100 ≤ 100 :=
  margin_of_safety_formula_and_haircut 100 50 (by norm_num) (by norm_num)

/-- Claim C9 counterexample: a full run with positive revenues and net
incomes but negative free cash flows computes fair value −176 and, with the
positive margin of safety 50, returns −88, which is strictly greater than
the fair value — refuting `margin_of_safety > 0 → fair_value_with_margin ≤
fair_value` (the product formula itself still holds: −88 = −176 × (1 − 1/2)). -/
theorem margin_of_safety_negative_fair_value_cex :
    calculate ⟨8, 1, Risk.conservative, 5 / 2, 50⟩ "AAPL"
      ⟨[⟨2018, 1000, 100⟩, ⟨2019, 1100, 110⟩], [⟨500, 580⟩, ⟨500, 588⟩]⟩ [⟨10⟩] =
      Except.ok (-176, -88) ∧
    (0 : ℚ) < 50 ∧ ¬ ((-88 : ℚ) ≤ -176) := by
  refine ⟨?_, by norm_num, by norm_num⟩
  norm_num [calculate, combine_metrics, List.insertionSort, List.orderedInsert,
    calculate_free_cash_flow_rate, calculate_revenue_growth_rate,
    calculate_net_income_margins_percentage, map_except, pydiv,
    choose_percentage_based_on_risk, percentage_change,
    estimate_future_metrics, calculate_future_revenue, future_revenue_loop,
    add_percentage, calculate_future_net_income_and_free_cash_flow,
    calculate_terminal_value, calculate_today_value, present_values_loop,
    present_value, discount_factor, calculate_fair_value,
    apply_margin_of_safety, subtract_percentage]

end DCF
